import Mathlib

/-!
Verification development for the gravity-genesis state compiler.

The definitions below are a shallow embedding of the Rust sources in
`gravity-genesis/src` (`execute.rs`, `genesis.rs`, `jwks.rs`, `utils.rs`,
`post_genesis.rs`).  Machine integers are modelled as `Nat` (U256 wrap is
made explicit with `% 2 ^ 256` where it can matter), addresses are the
numeric value of the 20-byte identifier, byte strings are `List Nat`,
fallible Rust code (`panic!`, `expect`, `unwrap`, `assert_eq!`) is
modelled with `Except String`.  Hash maps (`std::collections::HashMap`,
revm's account maps) are modelled as association lists observed only
through lookup; the per-process randomized iteration order of a Rust
`HashMap` is modelled as an explicit `order` argument to the
serialization functions.  The EVM execution engine and the ABI codec are
external collaborators: the engine's output is a parameter, call payloads
are typed descriptors.
-/

/-! ## Association maps (model of HashMap observed through lookup) -/

/-- Lookup in an association list, first binding wins (a HashMap has at
most one binding per key). -/
def alookup {α : Type} : List (Nat × α) → Nat → Option α
  | [], _ => none
  | (k, v) :: rest, a => if k = a then some v else alookup rest a

/-- Insert-or-overwrite, the model of `HashMap::insert`. -/
def ainsert {α : Type} : List (Nat × α) → Nat → α → List (Nat × α)
  | [], k, v => [(k, v)]
  | (k0, v0) :: rest, k, v =>
    if k0 = k then (k, v) :: rest else (k0, v0) :: ainsert rest k v

/-- Removal of a key, the model of `HashMap::remove`. -/
def aremove {α : Type} : List (Nat × α) → Nat → List (Nat × α)
  | [], _ => []
  | (k0, v0) :: rest, k =>
    if k0 = k then aremove rest k else (k0, v0) :: aremove rest k

theorem alookup_ainsert_self {α : Type} (m : List (Nat × α)) (k : Nat) (v : α) :
    alookup (ainsert m k v) k = some v := by
  induction m with
  | nil => simp [ainsert, alookup]
  | cons p rest ih =>
    obtain ⟨k0, v0⟩ := p
    by_cases h : k0 = k
    · simp [ainsert, h, alookup]
    · simp [ainsert, h, alookup, ih]

theorem alookup_ainsert_ne {α : Type} (m : List (Nat × α)) (k a : Nat) (v : α)
    (hne : k ≠ a) : alookup (ainsert m k v) a = alookup m a := by
  induction m with
  | nil => simp [ainsert, alookup, hne]
  | cons p rest ih =>
    obtain ⟨k0, v0⟩ := p
    by_cases h : k0 = k
    · subst h
      simp [ainsert, alookup, hne]
    · simp only [ainsert, if_neg h]
      by_cases h2 : k0 = a
      · simp [alookup, h2]
      · simp [alookup, h2, ih]

theorem alookup_aremove_self {α : Type} (m : List (Nat × α)) (k : Nat) :
    alookup (aremove m k) k = none := by
  induction m with
  | nil => simp [aremove, alookup]
  | cons p rest ih =>
    obtain ⟨k0, v0⟩ := p
    by_cases h : k0 = k
    · simp [aremove, h, ih]
    · simp [aremove, h, alookup, ih]

theorem not_mem_fst_aremove {α : Type} (m : List (Nat × α)) (k : Nat) :
    k ∉ (aremove m k).map Prod.fst := by
  induction m with
  | nil => simp [aremove]
  | cons p rest ih =>
    obtain ⟨k0, v0⟩ := p
    by_cases h : k0 = k
    · simpa [aremove, h] using ih
    · intro hmem
      simp only [aremove, if_neg h, List.map_cons, List.mem_cons] at hmem
      rcases hmem with h1 | h2
      · exact h h1.symm
      · exact ih h2

/-! ## Hex, decimal, UTF-8 and BCS codecs (models of `hex::decode`,
`str::parse`, `String::as_bytes`, `bcs::to_bytes`) -/

/-- Value of one hexadecimal digit character (`0-9a-fA-F`). -/
def hexDigitVal (c : Char) : Option Nat :=
  if 48 ≤ c.toNat ∧ c.toNat ≤ 57 then some (c.toNat - 48)
  else if 97 ≤ c.toNat ∧ c.toNat ≤ 102 then some (c.toNat - 87)
  else if 65 ≤ c.toNat ∧ c.toNat ≤ 70 then some (c.toNat - 55)
  else none

/-- Decode a list of hex digit characters two at a time into bytes;
odd length or a non-hex character fails, exactly like `hex::decode`. -/
def hexPairs : List Char → Option (List Nat)
  | [] => some []
  | [_] => none
  | c1 :: c2 :: rest =>
    match hexDigitVal c1, hexDigitVal c2, hexPairs rest with
    | some h, some l, some bs => some ((16 * h + l) :: bs)
    | _, _, _ => none

/-- Drop an optional leading `0x` marker (char codes 48 and 120), as
`const_hex::decode` does. -/
def dropHexMark (cs : List Char) : List Char :=
  match cs with
  | c1 :: c2 :: rest => if c1.toNat = 48 ∧ c2.toNat = 120 then rest else cs
  | _ => cs

/-- Model of `hex::decode` on a string. -/
def hexDecode (s : String) : Option (List Nat) :=
  hexPairs (dropHexMark s.data)

/-- Big-endian byte list to natural number. -/
def bytesToNat (bs : List Nat) : Nat :=
  bs.foldl (fun acc b => acc * 256 + b) 0

/-- Value of one decimal digit character. -/
def decDigitVal (c : Char) : Option Nat :=
  if 48 ≤ c.toNat ∧ c.toNat ≤ 57 then some (c.toNat - 48) else none

def parseDecAux : List Char → Nat → Option Nat
  | [], acc => some acc
  | c :: rest, acc =>
    match decDigitVal c with
    | some d => parseDecAux rest (acc * 10 + d)
    | none => none

/-- Model of `str::parse::<U256>` on a decimal string: non-empty digit
string whose value fits in 256 bits.  (ruint also accepts `0x`-prefixed
hex input; the genesis configurations use decimal voting powers.) -/
def parseDecimalU256 (s : String) : Option Nat :=
  match s.data with
  | [] => none
  | cs =>
    match parseDecAux cs 0 with
    | some v => if v < 2 ^ 256 then some v else none
    | none => none

/-- UTF-8 encoding of one code point. -/
def utf8EncodeCharNat (n : Nat) : List Nat :=
  if n < 128 then [n]
  else if n < 2048 then [192 + n / 64, 128 + n % 64]
  else if n < 65536 then [224 + n / 4096, 128 + (n / 64) % 64, 128 + n % 64]
  else [240 + n / 262144, 128 + (n / 4096) % 64, 128 + (n / 64) % 64, 128 + n % 64]

/-- Model of `String::as_bytes` (UTF-8 bytes). -/
def utf8Bytes (s : String) : List Nat :=
  (s.data.map (fun c => utf8EncodeCharNat c.toNat)).flatten

/-- Unsigned LEB128 encoding, as used by BCS for sequence lengths. -/
def uleb128 (n : Nat) : List Nat :=
  if h : n < 128 then [n]
  else (n % 128 + 128) :: uleb128 (n / 128)
termination_by n
decreasing_by exact Nat.div_lt_self (by omega) (by omega)

/-- Model of `bcs::to_bytes` on a `String`: ULEB128 byte length followed
by the UTF-8 bytes. -/
def bcsStringBytes (s : String) : List Nat :=
  uleb128 (utf8Bytes s).length ++ utf8Bytes s

/-! ## Static address table (`utils.rs`) -/

def DEAD_ADDRESS : Nat := 0xdEaD
def GENESIS_ADDR : Nat := 0x2008
def SYSTEM_CONTRACT_ADDRESS : Nat := 0x20FF
def PERFORMANCE_TRACKER_ADDR : Nat := 0x200f
def EPOCH_MANAGER_ADDR : Nat := 0x2010
def STAKE_CONFIG_ADDR : Nat := 0x2011
def DELEGATION_ADDR : Nat := 0x2012
def VALIDATOR_MANAGER_ADDR : Nat := 0x2013
def VALIDATOR_MANAGER_UTILS_ADDR : Nat := 0x2014
def VALIDATOR_PERFORMANCE_TRACKER_ADDR : Nat := 0x2015
def BLOCK_ADDR : Nat := 0x2016
def TIMESTAMP_ADDR : Nat := 0x2017
def JWK_MANAGER_ADDR : Nat := 0x2018
def KEYLESS_ACCOUNT_ADDR : Nat := 0x2019
def SYSTEM_REWARD_ADDR : Nat := 0x201a
def GOV_HUB_ADDR : Nat := 0x201b
def STAKE_CREDIT_ADDR : Nat := 0x201c
def GOV_TOKEN_ADDR : Nat := 0x201d
def GOVERNOR_ADDR : Nat := 0x201e
def TIMELOCK_ADDR : Nat := 0x201f
def RANDOMNESS_CONFIG_ADDR : Nat := 0x2020
def DKG_ADDR : Nat := 0x2021
def RECONFIGURATION_WITH_DKG_ADDR : Nat := 0x2022
def HASH_ORACLE_ADDR : Nat := 0x2023

/-- The privileged caller used for all system transactions. -/
def SYSTEM_CALLER : Nat := 0x2000

/-- The static contract table `CONTRACTS` of `utils.rs`, in source order. -/
def CONTRACTS : List (String × Nat) :=
  [("System", SYSTEM_CONTRACT_ADDRESS),
   ("StakeConfig", STAKE_CONFIG_ADDR),
   ("ValidatorManagerUtils", VALIDATOR_MANAGER_UTILS_ADDR),
   ("ValidatorManager", VALIDATOR_MANAGER_ADDR),
   ("ValidatorPerformanceTracker", VALIDATOR_PERFORMANCE_TRACKER_ADDR),
   ("EpochManager", EPOCH_MANAGER_ADDR),
   ("GovToken", GOV_TOKEN_ADDR),
   ("Timelock", TIMELOCK_ADDR),
   ("GravityGovernor", GOVERNOR_ADDR),
   ("JWKManager", JWK_MANAGER_ADDR),
   ("KeylessAccount", KEYLESS_ACCOUNT_ADDR),
   ("Block", BLOCK_ADDR),
   ("Timestamp", TIMESTAMP_ADDR),
   ("Genesis", GENESIS_ADDR),
   ("StakeCredit", STAKE_CREDIT_ADDR),
   ("Delegation", DELEGATION_ADDR),
   ("GovHub", GOV_HUB_ADDR),
   ("RandomnessConfig", RANDOMNESS_CONFIG_ADDR),
   ("DKG", DKG_ADDR),
   ("ReconfigurationWithDKG", RECONFIGURATION_WITH_DKG_ADDR),
   ("HashOracle", HASH_ORACLE_ADDR)]

/-! ## Account model (revm `AccountInfo`, `PlainAccount`, bundle state) -/

structure AccountInfo where
  balance : Nat
  nonce : Nat
  code : Option (List Nat)
deriving DecidableEq

/-- `SYSTEM_ACCOUNT_INFO` of `utils.rs`: 1 ETH balance, nonce 1, no code. -/
def SYSTEM_ACCOUNT_INFO : AccountInfo :=
  ⟨1000000000000000000, 1, none⟩

structure PlainAccount where
  info : AccountInfo
  storage : List (Nat × Nat)
deriving DecidableEq

/-- revm `StorageSlot`: previous/original value and present value; the
merge only reads the present value. -/
structure StorageSlot where
  previousOrOriginalValue : Nat
  presentValue : Nat
deriving DecidableEq

/-- One account of a revm `BundleState` diff: optional updated info plus
touched storage slots. -/
structure BundleAccount where
  info : Option AccountInfo
  storage : List (Nat × StorageSlot)
deriving DecidableEq

/-- The `BundleState` produced by sequential execution (only the `state`
map is consumed by the merge). -/
structure Bundle where
  state : List (Nat × BundleAccount)
deriving DecidableEq

/-! ## Bytecode seeding (`deploy_bsc_style`, `extract_runtime_bytecode`) -/

/-- `extract_runtime_bytecode`: hex-decode with `unwrap_or_default` (an
undecodable blob silently becomes the empty byte string); the
constructor-bytecode heuristic only emits a warning and passes the bytes
through unchanged in both branches. -/
def extractRuntimeBytecode (s : String) : List Nat :=
  let bytes := (hexDecode s).getD []
  if bytes.length > 100 ∧ (bytes.head? = some 96 ∨ bytes.head? = some 97) then
    bytes
  else
    bytes

/-- The balance allow-list of `deploy_bsc_style`, compared against the
contract *name* exactly as the source writes it. -/
def balanceForContract (name : String) : Nat :=
  if name = "JwkManager" ∨ name = "ValidatorManager" ∨ name = "Genesis" then
    1000000 * 10 ^ 18
  else
    0

/-- Generic seeding fold: walk the contract table, read each blob from
the directory (`read_hex_from_file` panics when the file is missing) and
insert the account built by `mk` at the contract address. -/
def seedFold {α : Type} (mk : String → String → α) (dir : String → Option String) :
    List (String × Nat) → List (Nat × α) → Except String (List (Nat × α))
  | [], db => .ok db
  | (name, addr) :: rest, db =>
    match dir name with
    | none => .error ("Failed to open " ++ name ++ ".hex")
    | some s => seedFold mk dir rest (ainsert db addr (mk name s))

/-- Account record seeded by `deploy_bsc_style` for one contract. -/
def mkDeployAccount (name content : String) : AccountInfo :=
  ⟨balanceForContract name, 0, some (extractRuntimeBytecode content)⟩

/-- `deploy_bsc_style`: system caller account plus one account per entry
of the contract table. -/
def deployBscStyle (dir : String → Option String) :
    Except String (List (Nat × AccountInfo)) :=
  seedFold mkDeployAccount dir CONTRACTS [(SYSTEM_CALLER, SYSTEM_ACCOUNT_INFO)]

/-- Account record inserted into `genesis_state` for one contract in
`genesis_generate` (code only, `AccountInfo::default` otherwise, empty
storage). -/
def mkSeedPlain (_name content : String) : PlainAccount :=
  ⟨⟨0, 0, some (extractRuntimeBytecode content)⟩, []⟩

/-- The `genesis_state` seeding loop of `genesis_generate` (re-reads every
blob from the directory). -/
def seedGenesisState (dir : String → Option String) :
    Except String (List (Nat × PlainAccount)) :=
  seedFold mkSeedPlain dir CONTRACTS []

/-! ## Genesis configuration parsing (`genesis.rs`) -/

/-- The JSON genesis configuration (`GenesisConfig`), all fields textual. -/
structure GenesisConfig where
  validatorAddresses : List String
  consensusPublicKeys : List String
  votingPowers : List String
  validatorNetworkAddresses : List String
  fullnodeNetworkAddresses : List String
  aptosAddresses : List String
deriving DecidableEq

/-- The decoded parameters (`GenesisInitParam`). -/
structure GenesisInitParam where
  validatorAddresses : List Nat
  consensusPublicKeys : List (List Nat)
  votingPowers : List Nat
  validatorNetworkAddresses : List (List Nat)
  fullnodeNetworkAddresses : List (List Nat)
  aptosAddresses : List (List Nat)
deriving DecidableEq

/-- Model of `str::parse::<Address>`: an optional `0x` marker followed by
exactly 40 hex digits. -/
def parseAddress (s : String) : Option Nat :=
  let cs := dropHexMark s.data
  if cs.length = 40 then (hexPairs cs).map bytesToNat else none

/-- `addr.parse::<Address>().expect("Invalid validator address")`. -/
def parseAddressE (s : String) : Except String Nat :=
  match parseAddress s with
  | some a => .ok a
  | none => .error ("Invalid validator address")

/-- Voting-power conversion: parse as U256 (`expect("Invalid voting
power")`) then scale from ether to wei by `10 ^ 18` in U256 arithmetic. -/
def parsePowerE (s : String) : Except String Nat :=
  match parseDecimalU256 s with
  | some v => .ok ((v * 10 ^ 18) % 2 ^ 256)
  | none => .error ("Invalid voting power")

/-- Network-address conversion: the empty string becomes the empty byte
string, anything else is BCS-encoded. -/
def networkAddrBytes (s : String) : List Nat :=
  if s = "" then [] else bcsStringBytes s

/-- Aptos-address conversion: `hex::decode(addr).unwrap()` then
`try_into::<[u8; 32]>().unwrap()` (both panics modelled as errors). -/
def parseAptosAddress (s : String) : Except String (List Nat) :=
  match hexDecode s with
  | none => .error ("Invalid aptos address hex")
  | some bs => if bs.length = 32 then .ok bs else .error ("aptos address length is not 32")

/-- `Address::from_word`: the last 20 bytes of a 32-byte word. -/
def addressFromWord (bs : List Nat) : Nat :=
  bytesToNat (bs.drop 12)

/-- Effectful map over a list, stopping at the first error. -/
def mapE {α β : Type} (f : α → Except String β) : List α → Except String (List β)
  | [] => .ok []
  | x :: xs =>
    match f x with
    | .error e => .error e
    | .ok y =>
      match mapE f xs with
      | .error e => .error e
      | .ok ys => .ok (y :: ys)

/-- The cross-derivation loop of `parse_genesis_config`: for each index of
the validator-address list, compare against the derived list (a missing
derived entry is the Rust out-of-bounds panic, a differing entry is the
`Validator address mismatch` panic). -/
def checkAddrs : List Nat → List Nat → Except String Unit
  | [], _ => .ok ()
  | _ :: _, [] => .error ("index out of bounds")
  | v :: vs, d :: ds =>
    if v ≠ d then .error ("Validator address mismatch") else checkAddrs vs ds

/-- `parse_genesis_config`, with every `expect`/`unwrap`/`panic!` modelled
as an error, in source order. -/
def parseGenesisConfig (c : GenesisConfig) : Except String GenesisInitParam :=
  match mapE parseAddressE c.validatorAddresses with
  | .error e => .error e
  | .ok validatorAddresses =>
    let consensusPublicKeys := c.consensusPublicKeys.map utf8Bytes
    match mapE parsePowerE c.votingPowers with
    | .error e => .error e
    | .ok votingPowers =>
      let validatorNetworkAddresses := c.validatorNetworkAddresses.map networkAddrBytes
      let fullnodeNetworkAddresses := c.fullnodeNetworkAddresses.map networkAddrBytes
      match mapE parseAptosAddress c.aptosAddresses with
      | .error e => .error e
      | .ok aptosAddresses =>
        match checkAddrs validatorAddresses (aptosAddresses.map addressFromWord) with
        | .error e => .error e
        | .ok _ =>
          .ok ⟨validatorAddresses, consensusPublicKeys, votingPowers,
               validatorNetworkAddresses, fullnodeNetworkAddresses, aptosAddresses⟩

/-! ## Transactions and the genesis transaction builder
(`execute.rs`, `genesis.rs`, `jwks.rs`).  The ABI codec is an external
collaborator, so call payloads are modelled as typed descriptors. -/

structure JWK where
  variant : Nat
  data : List Nat
deriving DecidableEq

structure ProviderJWKs where
  issuer : String
  version : Nat
  jwks : List JWK
deriving DecidableEq

structure CrossChainParams where
  id : List Nat
  sender : Nat
  targetAddress : Nat
  amount : Nat
  blockNumber : Nat
  issuer : String
  data : List Nat
deriving DecidableEq

structure OIDCProvider where
  name : String
  configUrl : String
  active : Bool
  onchainBlockNumber : Nat
deriving DecidableEq

/-- Typed call payload standing for the ABI-encoded `data` bytes. -/
inductive CallPayload where
  | genesisInitialize (p : GenesisInitParam)
  | upsertObservedJWKs (providerJWKsArray : List ProviderJWKs)
      (crossChainParamsArray : List CrossChainParams)
  | upsertOIDCProvider (name configUrl : String)
  | getValidatorSet
  | getCurrentEpochInfo
  | getObservedJWKs
  | getActiveProviders
deriving DecidableEq

/-- revm `TxEnv` as filled in by `new_system_call_txn`. -/
structure TxEnv where
  caller : Nat
  gasLimit : Nat
  gasPrice : Nat
  transactTo : Option Nat
  value : Nat
  data : CallPayload
deriving DecidableEq

/-- `new_system_call_txn`: system caller, `u64::MAX` gas, zero gas price,
call to the contract, zero value. -/
def newSystemCallTxn (contract : Nat) (input : CallPayload) : TxEnv :=
  ⟨SYSTEM_CALLER, 2 ^ 64 - 1, 0, some contract, 0, input⟩

/-- `call_genesis_initialize`: parse the configuration (its panics abort
the build) and encode the initialize call. -/
def callGenesisInitialize (genesisAddress : Nat) (c : GenesisConfig) :
    Except String TxEnv :=
  match parseGenesisConfig c with
  | .error e => .error e
  | .ok p => .ok (newSystemCallTxn genesisAddress (.genesisInitialize p))

/-- The JSON JWK document structures of `jwks.rs`. -/
structure JsonJWK where
  variant : Nat
  data : String
deriving DecidableEq

structure JsonProviderJWKs where
  issuer : String
  version : Nat
  jwks : List JsonJWK
deriving DecidableEq

structure JsonAllProvidersJWKs where
  entries : List JsonProviderJWKs
deriving DecidableEq

structure JsonOIDCProvider where
  name : String
  configUrl : String
  active : Bool
deriving DecidableEq

structure JsonOIDCProviders where
  providers : List JsonOIDCProvider
deriving DecidableEq

/-- Hex-decode one JSON JWK entry (`read_jwks_from_file` conversion;
`hex::decode` itself accepts the optional `0x` marker the source strips
by hand). -/
def convertJwk (j : JsonJWK) : Except String JWK :=
  match hexDecode j.data with
  | none => .error ("Failed to decode hex data")
  | some bs => .ok ⟨j.variant, bs⟩

/-- `read_jwks_from_file`, on the already-JSON-parsed document. -/
def readJwksFromFile (doc : JsonAllProvidersJWKs) :
    Except String (List ProviderJWKs) :=
  mapE (fun entry =>
    match mapE convertJwk entry.jwks with
    | .error e => .error e
    | .ok jwks => .ok ⟨entry.issuer, entry.version, jwks⟩) doc.entries

/-- `upsert_observed_jwks`: one transaction carrying the whole provider
array and an empty cross-chain-params array. -/
def upsertObservedJwksTx (doc : JsonAllProvidersJWKs) : Except String TxEnv :=
  match readJwksFromFile doc with
  | .error e => .error e
  | .ok arr => .ok (newSystemCallTxn JWK_MANAGER_ADDR (.upsertObservedJWKs arr []))

/-- `read_oidc_providers_from_file`, on the already-JSON-parsed document. -/
def readOidcProvidersFromFile (doc : JsonOIDCProviders) : List OIDCProvider :=
  doc.providers.map (fun p => ⟨p.name, p.configUrl, p.active, 0⟩)

/-- `upsert_oidc_providers`: one `upsertOIDCProvider` transaction per
provider entry, in file order. -/
def upsertOidcProviderTxs (doc : JsonOIDCProviders) : List TxEnv :=
  (readOidcProvidersFromFile doc).map
    (fun p => newSystemCallTxn JWK_MANAGER_ADDR (.upsertOIDCProvider p.name p.configUrl))

/-- `GenesisTransactionBuilder::with_jwks`: a missing file adds nothing,
a present file must convert (`expect`) and appends one transaction. -/
def withJwksStep (txs : List TxEnv) :
    Option JsonAllProvidersJWKs → Except String (List TxEnv)
  | none => .ok txs
  | some doc =>
    match upsertObservedJwksTx doc with
    | .error e => .error e
    | .ok tx => .ok (txs ++ [tx])

/-- `GenesisTransactionBuilder::with_oidc_providers`. -/
def withOidcStep (txs : List TxEnv) : Option JsonOIDCProviders → List TxEnv
  | none => txs
  | some doc => txs ++ upsertOidcProviderTxs doc

/-- `build_genesis_transactions`: initialize first, then the optional JWK
transaction, then the optional OIDC transactions. -/
def buildGenesisTransactions (config : GenesisConfig)
    (jwksFile : Option JsonAllProvidersJWKs)
    (oidcProvidersFile : Option JsonOIDCProviders) : Except String (List TxEnv) :=
  match callGenesisInitialize GENESIS_ADDR config with
  | .error e => .error e
  | .ok initTx =>
    match withJwksStep [initTx] jwksFile with
    | .error e => .error e
    | .ok txs => .ok (withOidcStep txs oidcProvidersFile)

/-! ## Execution outcomes and diagnostics (`utils.rs`) -/

/-- revm `ExecutionResult`.  Logs are modelled at the decoded level of the
`Log(string, uint256)` event the diagnostics print. -/
inductive ExecResult where
  | success (gasUsed : Nat) (logs : List (String × Nat)) (output : List Nat)
  | revert (gasUsed : Nat) (output : List Nat)
  | halt (reason : String) (gasUsed : Nat)
deriving DecidableEq

def ExecResult.isSuccess : ExecResult → Bool
  | .success _ _ _ => true
  | _ => false

/-- One byte as two lowercase hex characters. -/
def hexByteStr (n : Nat) : String :=
  let digit := fun (d : Nat) =>
    String.mk [Char.ofNat (if d < 10 then 48 + d else 87 + d)]
  digit (n / 16 % 16) ++ digit (n % 16)

/-- Model of `hex::encode`. -/
def hexOfBytes (bs : List Nat) : String :=
  String.join (bs.map hexByteStr)

/-- The hard-coded revert-selector table of `analyze_txn_result`. -/
def selectorName (sel : List Nat) : String :=
  if sel = [0x49, 0xfd, 0x36, 0xf2] then " (OnlySystemCaller)"
  else if sel = [0x97, 0xb8, 0x83, 0x54] then " (UnknownParam)"
  else if sel = [0x0a, 0x5a, 0x60, 0x41] then " (InvalidValue)"
  else if sel = [0x11, 0x6c, 0x64, 0xa8] then " (OnlyCoinbase)"
  else if sel = [0x83, 0xf1, 0xb1, 0xd3] then " (OnlyZeroGasPrice)"
  else if sel = [0xf2, 0x2c, 0x43, 0x90] then " (OnlySystemContract)"
  else " (Unknown error selector)"

/-- `analyze_txn_result`: the diagnostic line for one outcome, with the
4-byte selector decoded through the hard-coded table. -/
def analyzeTxnResult : ExecResult → String
  | .revert gasUsed output =>
    let reason := "Revert with gas used: " ++ toString gasUsed
    let reason :=
      if output.length ≥ 4 then
        reason ++ "\nFunction selector: 0x" ++ hexOfBytes (output.take 4) ++
          selectorName (output.take 4)
      else reason
    if output.length > 4 then
      reason ++ "\nAdditional data: 0x" ++ hexOfBytes (output.drop 4)
    else reason
  | .success gasUsed logs _ =>
    let logMsg := String.join (logs.map (fun l =>
      "txn event Log: " ++ l.fst ++ ", " ++ toString l.snd ++ "."))
    "Success with gas used: " ++ toString gasUsed ++ ", " ++ logMsg
  | .halt reason gasUsed =>
    "Halt: " ++ reason ++ " with gas used: " ++ toString gasUsed

/-- The per-transaction success check of `genesis_generate`: the first
non-success outcome aborts the run (`panic!("Genesis transaction {} failed")`)
after printing the decoded diagnostics. -/
def checkResults (i : Nat) : List ExecResult → Except String Unit
  | [] => .ok ()
  | r :: rest =>
    if r.isSuccess then checkResults (i + 1) rest
    else .error ("Genesis transaction " ++ toString (i + 1) ++ " failed: " ++
      analyzeTxnResult r)

/-! ## The state merge engine and `genesis_generate` (`execute.rs`) -/

/-- `HashMap::extend` on a storage map: every entry of `new` is inserted,
overwriting an existing binding for the same key. -/
def extendStorage : List (Nat × Nat) → List (Nat × Nat) → List (Nat × Nat)
  | old, [] => old
  | old, p :: rest => extendStorage (ainsert old p.fst p.snd) rest

/-- Merging one diff account into the working snapshot: the diff's
storage entries (present values) extend the existing storage, and the
diff's account-info replaces the account-info wholesale
(`existing.info = info`); an unseeded address is inserted fresh. -/
def mergeOne (existing : Option PlainAccount) (info : AccountInfo)
    (storage : List (Nat × StorageSlot)) : PlainAccount :=
  let s := storage.map (fun p => (p.fst, p.snd.presentValue))
  match existing with
  | some e => ⟨info, extendStorage e.storage s⟩
  | none => ⟨info, s⟩

/-- The merge loop of `genesis_generate` over the bundle-state entries:
entries without an account-info payload are skipped. -/
def mergeBundle : List (Nat × BundleAccount) → List (Nat × PlainAccount) →
    List (Nat × PlainAccount)
  | [], gs => gs
  | (addr, acct) :: rest, gs =>
    match acct.info with
    | none => mergeBundle rest gs
    | some info => mergeBundle rest (ainsert gs addr (mergeOne (alookup gs addr) info acct.storage))

/-- The result of a full `genesis_generate` run: the merged genesis
account map and the names of the artifacts written, in write order. -/
structure GenesisRunOutput where
  genesisState : List (Nat × PlainAccount)
  writtenArtifacts : List String
deriving DecidableEq

/-- `genesis_generate`.  The sequential EVM execution is an external
collaborator, so its outcome (`execute_revm_sequential`'s result) is a
parameter.  An abort (`panic!`) carries the diagnostic and the list of
artifacts already written when it happened; every fallible step precedes
the first file write, so an abort always leaves that list empty. -/
def genesisGenerate (dir : String → Option String) (config : GenesisConfig)
    (jwksFile : Option JsonAllProvidersJWKs)
    (oidcProvidersFile : Option JsonOIDCProviders)
    (execOutcome : Except String (List ExecResult × Bundle)) :
    Except (String × List String) GenesisRunOutput :=
  match deployBscStyle dir with
  | .error e => .error (e, [])
  | .ok _db =>
    match buildGenesisTransactions config jwksFile oidcProvidersFile with
    | .error e => .error (e, [])
    | .ok _txs =>
      match execOutcome with
      | .error e => .error (e, [])
      | .ok (results, bundle) =>
        match checkResults 0 results with
        | .error e => .error (e, [])
        | .ok _ =>
          match seedGenesisState dir with
          | .error e => .error (e, [])
          | .ok genesisState0 =>
            let bundleEntries := aremove bundle.state SYSTEM_CALLER
            let finalState := mergeBundle bundleEntries genesisState0
            .ok ⟨finalState, ["bundle_state.json", "genesis_accounts.json",
                              "genesis_contracts.json"]⟩

/-- The entry sequence serde writes for `genesis_accounts.json`: the
accounts in HashMap iteration order (`order`).  The byte stream of the
artifact is determined by, and determines, this ordered entry list. -/
def serializeAccounts (order : List Nat) (m : List (Nat × PlainAccount)) :
    List (Nat × PlainAccount) :=
  order.filterMap (fun a => (alookup m a).map (fun acct => (a, acct)))

/-- The entry sequence serde writes for `genesis_contracts.json`: for each
account in iteration order, its code bytes when it has code. -/
def serializeContracts (order : List Nat) (m : List (Nat × PlainAccount)) :
    List (Nat × List Nat) :=
  order.filterMap (fun a =>
    (alookup m a).bind (fun acct => acct.info.code.map (fun c => (a, c))))

/-! ## Verification engine (`genesis.rs`, `jwks.rs`, `post_genesis.rs`) -/

structure Commission where
  rate : Nat
  maxRate : Nat
  maxChangeRate : Nat
deriving DecidableEq

inductive ValidatorStatus where
  | pendingActive
  | active
  | pendingInactive
  | inactive
deriving DecidableEq

/-- Decoded `IValidatorManager.ValidatorInfo` as returned by the
`getValidatorSet` query (ABI decoding is the external call codec). -/
structure ValidatorInfo where
  consensusPublicKey : List Nat
  commission : Commission
  moniker : String
  registered : Bool
  stakeCreditAddress : Nat
  status : ValidatorStatus
  votingPower : Nat
  validatorIndex : Nat
  updateTime : Nat
  operator : Nat
  validatorNetworkAddresses : List Nat
  fullnodeNetworkAddresses : List Nat
  aptosAddress : List Nat
deriving DecidableEq

/-- One reported field mismatch: validator index, field name, expected
and actual values rendered for diagnosis. -/
structure FieldMismatch where
  validatorIndex : Nat
  field : String
  expected : String
  actual : String
deriving DecidableEq

/-- The field-by-field comparison for one validator, in source order
(operator, aptos address, consensus key, voting power, validator network
addresses, fullnode network addresses).  Each mismatch is logged with its
expected and actual values and clears `all_match`. -/
def compareValidator (i : Nat) (expOperator : Nat) (expAptos : List Nat)
    (expKey : List Nat) (expPower : Nat) (expVNet expFNet : List Nat)
    (v : ValidatorInfo) : List FieldMismatch :=
  (if expOperator = v.operator then [] else
    [⟨i, "operator address", toString expOperator, toString v.operator⟩]) ++
  (if expAptos = v.aptosAddress then [] else
    [⟨i, "aptos address", hexOfBytes expAptos, hexOfBytes v.aptosAddress⟩]) ++
  (if expKey = v.consensusPublicKey then [] else
    [⟨i, "consensus public key", hexOfBytes expKey, hexOfBytes v.consensusPublicKey⟩]) ++
  (if expPower = v.votingPower then [] else
    [⟨i, "voting power", toString expPower, toString v.votingPower⟩]) ++
  (if expVNet = v.validatorNetworkAddresses then [] else
    [⟨i, "validator network addresses", hexOfBytes expVNet,
      hexOfBytes v.validatorNetworkAddresses⟩]) ++
  (if expFNet = v.fullnodeNetworkAddresses then [] else
    [⟨i, "fullnode network addresses", hexOfBytes expFNet,
      hexOfBytes v.fullnodeNetworkAddresses⟩])

/-- The per-validator loop of `validate_genesis_data_consistency`: each
configured list is indexed at `i` (a Rust out-of-bounds panic when a list
is shorter than the validator-address list is modelled as an error). -/
def collectMismatches (p : GenesisInitParam) (i : Nat) :
    List ValidatorInfo → Except String (List FieldMismatch)
  | [] => .ok []
  | v :: rest =>
    match p.validatorAddresses.get? i, p.aptosAddresses.get? i,
      p.consensusPublicKeys.get? i, p.votingPowers.get? i,
      p.validatorNetworkAddresses.get? i, p.fullnodeNetworkAddresses.get? i with
    | some a, some ap, some k, some pw, some vn, some fn =>
      match collectMismatches p (i + 1) rest with
      | .error e => .error e
      | .ok ms => .ok (compareValidator i a ap k pw vn fn v ++ ms)
    | _, _, _, _, _, _ => .error ("index out of bounds")

/-- Outcome of the validator-set consistency check: an early return on a
count mismatch (no per-field banner), or the collected per-field
mismatch reports, whose emptiness is the `all_match` pass/fail signal. -/
inductive ValidationOutcome where
  | countMismatch (expected actual : Nat)
  | checked (mismatches : List FieldMismatch)
deriving DecidableEq

/-- `validate_genesis_data_consistency`: re-parse the configuration (its
panics abort), compare counts, then compare field by field; mismatches
are collected and reported, never thrown. -/
def validateGenesisDataConsistency (config : GenesisConfig)
    (activeValidators : List ValidatorInfo) : Except String ValidationOutcome :=
  match parseGenesisConfig config with
  | .error e => .error e
  | .ok p =>
    if p.validatorAddresses.length ≠ activeValidators.length then
      .ok (.countMismatch p.validatorAddresses.length activeValidators.length)
    else
      match collectMismatches p 0 activeValidators with
      | .error e => .error e
      | .ok ms => .ok (.checked ms)

/-- The inner assertion loop of `print_jwks_result` over one returned
provider's JWK list (index-by-index `assert_eq!` on variant and data
after the length assertion). -/
def checkJwkLists : List JWK → List JWK → Except String Unit
  | [], _ => .ok ()
  | _ :: _, [] => .error ("index out of bounds")
  | x :: xs, y :: ys =>
    if x.variant ≠ y.variant then .error ("assertion failed: variant")
    else if x.data ≠ y.data then .error ("assertion failed: data")
    else checkJwkLists xs ys

/-- `print_jwks_result`'s treatment of one returned provider: look it up
in the source file by issuer; when absent nothing is compared, when
present `assert_eq!` on version, JWK count and each JWK (a failed
assertion is a panic). -/
def checkJwkEntry (fileEntries : List ProviderJWKs) (provider : ProviderJWKs) :
    Except String Unit :=
  match fileEntries.find? (fun p => p.issuer == provider.issuer) with
  | none => .ok ()
  | some providerJwks =>
    if providerJwks.version ≠ provider.version then
      .error ("assertion failed: version")
    else if providerJwks.jwks.length ≠ provider.jwks.length then
      .error ("assertion failed: jwks length")
    else checkJwkLists providerJwks.jwks provider.jwks

/-- `print_jwks_result` on the decoded query result: iterate over the
*returned* providers only. -/
def printJwksResult (fileEntries : List ProviderJWKs) :
    List ProviderJWKs → Except String Unit
  | [] => .ok ()
  | r :: rest =>
    match checkJwkEntry fileEntries r with
    | .error e => .error e
    | .ok _ => printJwksResult fileEntries rest

/-- `print_oidc_providers_result`'s treatment of one returned provider:
look it up in the expected file by name; when absent only an advisory
line is logged, when present `assert_eq!` on name, config URL and the
active flag. -/
def checkOidcEntry (expected : List OIDCProvider) (provider : OIDCProvider) :
    Except String Unit :=
  match expected.find? (fun p => p.name == provider.name) with
  | none => .ok ()
  | some e =>
    if e.name ≠ provider.name then .error ("assertion failed: name")
    else if e.configUrl ≠ provider.configUrl then .error ("assertion failed: configUrl")
    else if e.active ≠ provider.active then .error ("assertion failed: active")
    else .ok ()

/-- `print_oidc_providers_result` on the decoded query result: iterate
over the *returned* providers only. -/
def printOidcProvidersResult (expected : List OIDCProvider) :
    List OIDCProvider → Except String Unit
  | [] => .ok ()
  | r :: rest =>
    match checkOidcEntry expected r with
    | .error e => .error e
    | .ok _ => printOidcProvidersResult expected rest

/-- `run_main_logic` seen from generation and validator-set verification:
generation runs first and produces its artifacts; verification consumes
the committed state (here: the decoded query result) afterwards and its
outcome cannot touch the artifacts. -/
def runMainLogic (dir : String → Option String) (config : GenesisConfig)
    (jwksFile : Option JsonAllProvidersJWKs)
    (oidcProvidersFile : Option JsonOIDCProviders)
    (execOutcome : Except String (List ExecResult × Bundle))
    (activeValidators : List ValidatorInfo) :
    Except (String × List String) (GenesisRunOutput × Except String ValidationOutcome) :=
  match genesisGenerate dir config jwksFile oidcProvidersFile execOutcome with
  | .error e => .error e
  | .ok out => .ok (out, validateGenesisDataConsistency config activeValidators)

/-! ## Helper lemmas about the seeding fold -/

theorem seedFold_lookup_not_mem {α : Type} (mk : String → String → α)
    (dir : String → Option String) (cs : List (String × Nat))
    (db db2 : List (Nat × α)) (a : Nat)
    (hok : seedFold mk dir cs db = .ok db2) (hmem : a ∉ cs.map Prod.snd) :
    alookup db2 a = alookup db a := by
  induction cs generalizing db with
  | nil =>
    simp only [seedFold] at hok
    cases hok
    rfl
  | cons p rest ih =>
    obtain ⟨n0, a0⟩ := p
    simp only [List.map_cons, List.mem_cons] at hmem
    push_neg at hmem
    simp only [seedFold] at hok
    cases hd : dir n0 with
    | none => rw [hd] at hok; cases hok
    | some s =>
      rw [hd] at hok
      have := ih (ainsert db a0 (mk n0 s)) hok hmem.2
      rw [this, alookup_ainsert_ne _ _ _ _ (Ne.symm hmem.1)]

theorem seedFold_lookup_mem {α : Type} (mk : String → String → α)
    (dir : String → Option String) (cs : List (String × Nat))
    (db db2 : List (Nat × α)) (name : String) (addr : Nat)
    (hok : seedFold mk dir cs db = .ok db2)
    (hnd : (cs.map Prod.snd).Nodup) (hmem : (name, addr) ∈ cs) :
    ∃ s, dir name = some s ∧ alookup db2 addr = some (mk name s) := by
  induction cs generalizing db with
  | nil => cases hmem
  | cons p rest ih =>
    obtain ⟨n0, a0⟩ := p
    simp only [List.map_cons, List.nodup_cons] at hnd
    simp only [seedFold] at hok
    cases hd : dir n0 with
    | none => rw [hd] at hok; cases hok
    | some s =>
      rw [hd] at hok
      rcases List.mem_cons.1 hmem with hhead | htail
      · obtain ⟨hn, ha⟩ := Prod.mk.injEq .. ▸ hhead
        subst hn
        subst ha
        refine ⟨s, hd, ?_⟩
        rw [seedFold_lookup_not_mem mk dir rest _ _ _ hok hnd.1,
          alookup_ainsert_self]
      · exact ih _ hok hnd.2 htail

theorem seedFold_error_of_missing {α : Type} (mk : String → String → α)
    (dir : String → Option String) (cs : List (String × Nat))
    (db : List (Nat × α)) (name : String) (addr : Nat)
    (hmem : (name, addr) ∈ cs) (hmiss : dir name = none) :
    ∃ e, seedFold mk dir cs db = .error e := by
  induction cs generalizing db with
  | nil => cases hmem
  | cons p rest ih =>
    obtain ⟨n0, a0⟩ := p
    simp only [seedFold]
    cases hd : dir n0 with
    | none => exact ⟨_, rfl⟩
    | some s =>
      rcases List.mem_cons.1 hmem with hhead | htail
      · obtain ⟨hn, _⟩ := Prod.mk.injEq .. ▸ hhead
        subst hn
        rw [hd] at hmiss
        cases hmiss
      · exact ih _ htail

/-! ## Helper lemmas about the merge engine -/

theorem extendStorage_lookup_not_mem (old new : List (Nat × Nat)) (k : Nat)
    (h : k ∉ new.map Prod.fst) :
    alookup (extendStorage old new) k = alookup old k := by
  induction new generalizing old with
  | nil => rfl
  | cons p rest ih =>
    obtain ⟨k0, v0⟩ := p
    simp only [List.map_cons, List.mem_cons] at h
    push_neg at h
    simp only [extendStorage]
    rw [ih _ h.2, alookup_ainsert_ne _ _ _ _ (Ne.symm h.1)]

theorem extendStorage_lookup_mem (old new : List (Nat × Nat)) (k v : Nat)
    (hnd : (new.map Prod.fst).Nodup) (hmem : (k, v) ∈ new) :
    alookup (extendStorage old new) k = some v := by
  induction new generalizing old with
  | nil => cases hmem
  | cons p rest ih =>
    obtain ⟨k0, v0⟩ := p
    simp only [List.map_cons, List.nodup_cons] at hnd
    simp only [extendStorage]
    rcases List.mem_cons.1 hmem with hhead | htail
    · obtain ⟨hk, hv⟩ := Prod.mk.injEq .. ▸ hhead
      subst hk
      subst hv
      rw [extendStorage_lookup_not_mem _ _ _ hnd.1, alookup_ainsert_self]
    · exact ih _ hnd.2 htail

theorem mergeBundle_lookup_not_mem (bs : List (Nat × BundleAccount))
    (gs : List (Nat × PlainAccount)) (a : Nat) (h : a ∉ bs.map Prod.fst) :
    alookup (mergeBundle bs gs) a = alookup gs a := by
  induction bs generalizing gs with
  | nil => rfl
  | cons p rest ih =>
    obtain ⟨addr, acct⟩ := p
    simp only [List.map_cons, List.mem_cons] at h
    push_neg at h
    simp only [mergeBundle]
    cases acct.info with
    | none => exact ih _ h.2
    | some info =>
      rw [ih _ h.2, alookup_ainsert_ne _ _ _ _ (Ne.symm h.1)]

theorem mergeBundle_lookup_mem (bs : List (Nat × BundleAccount))
    (gs : List (Nat × PlainAccount)) (addr : Nat) (acct : BundleAccount)
    (info : AccountInfo) (hnd : (bs.map Prod.fst).Nodup)
    (hmem : (addr, acct) ∈ bs) (hinfo : acct.info = some info) :
    alookup (mergeBundle bs gs) addr =
      some (mergeOne (alookup gs addr) info acct.storage) := by
  induction bs generalizing gs with
  | nil => cases hmem
  | cons p rest ih =>
    obtain ⟨a0, acct0⟩ := p
    simp only [List.map_cons, List.nodup_cons] at hnd
    simp only [mergeBundle]
    rcases List.mem_cons.1 hmem with hhead | htail
    · obtain ⟨ha, hacct⟩ := Prod.mk.injEq .. ▸ hhead
      subst ha
      subst hacct
      rw [hinfo]
      rw [mergeBundle_lookup_not_mem _ _ _ hnd.1, alookup_ainsert_self]
    · have haddr : addr ≠ a0 := by
        intro hcontra
        exact hnd.1 (hcontra ▸ (List.mem_map.2 ⟨(addr, acct), htail, rfl⟩))
      cases hi0 : acct0.info with
      | none => exact ih _ hnd.2 htail
      | some info0 =>
        rw [ih _ hnd.2 htail,
          alookup_ainsert_ne _ _ _ _ (Ne.symm haddr)]

/-! ## Helper lemmas about the configuration cross-check -/

theorem checkAddrs_ok_get (vs ds : List Nat) (i v d : Nat)
    (hok : checkAddrs vs ds = .ok ()) (hv : vs.get? i = some v)
    (hd : ds.get? i = some d) : v = d := by
  induction vs generalizing ds i with
  | nil => cases hv
  | cons v0 rest ih =>
    cases ds with
    | nil => cases hok
    | cons d0 drest =>
      simp only [checkAddrs] at hok
      by_cases h : v0 = d0
      · rw [if_neg (by simpa using h)] at hok
        cases i with
        | zero =>
          cases hv
          cases hd
          exact h
        | succ j => exact ih drest j hok hv hd
      · rw [if_pos h] at hok
        cases hok

theorem checkAddrs_ok_of_agree (vs ds : List Nat)
    (hlen : vs.length ≤ ds.length)
    (hagree : ∀ i v d, vs.get? i = some v → ds.get? i = some d → v = d) :
    checkAddrs vs ds = .ok () := by
  induction vs generalizing ds with
  | nil => rfl
  | cons v0 rest ih =>
    cases ds with
    | nil => simp at hlen
    | cons d0 drest =>
      have h0 : v0 = d0 := hagree 0 v0 d0 rfl rfl
      subst h0
      simp only [checkAddrs]
      rw [if_neg (fun hc => hc rfl)]
      exact ih drest (by simpa using hlen)
        (fun i v d hv hd => hagree (i + 1) v d hv hd)

/-! ## Helper lemmas about the transaction-failure check -/

theorem checkResults_error (results : List ExecResult) (i0 idx : Nat)
    (r : ExecResult) (hr : results.get? idx = some r)
    (hfail : r.isSuccess = false)
    (hpre : ∀ k r2, k < idx → results.get? k = some r2 → r2.isSuccess = true) :
    checkResults i0 results = .error ("Genesis transaction " ++
      toString (i0 + idx + 1) ++ " failed: " ++ analyzeTxnResult r) := by
  induction results generalizing i0 idx with
  | nil => cases hr
  | cons r0 rest ih =>
    cases idx with
    | zero =>
      cases hr
      simp only [checkResults, hfail, Bool.false_eq_true, if_false]
    | succ j =>
      have h0 : r0.isSuccess = true := hpre 0 r0 (by omega) rfl
      simp only [checkResults, h0, if_true]
      have := ih (i0 + 1) j hr
        (fun k r2 hk hget => hpre (k + 1) r2 (by omega) hget)
      rw [this]
      have harith : i0 + 1 + j + 1 = i0 + (j + 1) + 1 := by omega
      rw [harith]

/-! ## Helper lemmas about the JWK/OIDC verification loops -/

theorem printJwksResult_error_of_mem (fileEntries res : List ProviderJWKs)
    (rj : ProviderJWKs) (e0 : String) (hmem : rj ∈ res)
    (hchk : checkJwkEntry fileEntries rj = .error e0) :
    ∃ e, printJwksResult fileEntries res = .error e := by
  induction res with
  | nil => cases hmem
  | cons r rest ih =>
    simp only [printJwksResult]
    cases hc : checkJwkEntry fileEntries r with
    | error e => exact ⟨e, rfl⟩
    | ok u =>
      rcases List.mem_cons.1 hmem with hhead | htail
      · subst hhead
        rw [hc] at hchk
        cases hchk
      · exact ih htail

theorem checkJwkEntry_append_of_ne (fileEntries : List ProviderJWKs)
    (extra : ProviderJWKs) (r : ProviderJWKs) (hne : r.issuer ≠ extra.issuer) :
    checkJwkEntry (fileEntries ++ [extra]) r = checkJwkEntry fileEntries r := by
  have hfind : (fileEntries ++ [extra]).find? (fun p => p.issuer == r.issuer) =
      fileEntries.find? (fun p => p.issuer == r.issuer) := by
    rw [List.find?_append]
    have : List.find? (fun p => p.issuer == r.issuer) [extra] = none := by
      simp only [List.find?]
      rw [beq_eq_false_iff_ne.mpr (Ne.symm hne)]
    rw [this]
    cases fileEntries.find? (fun p => p.issuer == r.issuer) <;> rfl
  simp only [checkJwkEntry, hfind]

theorem checkOidcEntry_append_of_ne (expected : List OIDCProvider)
    (extra : OIDCProvider) (r : OIDCProvider) (hne : r.name ≠ extra.name) :
    checkOidcEntry (expected ++ [extra]) r = checkOidcEntry expected r := by
  have hfind : (expected ++ [extra]).find? (fun p => p.name == r.name) =
      expected.find? (fun p => p.name == r.name) := by
    rw [List.find?_append]
    have : List.find? (fun p => p.name == r.name) [extra] = none := by
      simp only [List.find?]
      rw [beq_eq_false_iff_ne.mpr (Ne.symm hne)]
    rw [this]
    cases expected.find? (fun p => p.name == r.name) <;> rfl
  simp only [checkOidcEntry, hfind]

theorem printOidcProvidersResult_error_of_mem (expected res : List OIDCProvider)
    (re : OIDCProvider) (e0 : String) (hmem : re ∈ res)
    (hchk : checkOidcEntry expected re = .error e0) :
    ∃ e, printOidcProvidersResult expected res = .error e := by
  induction res with
  | nil => cases hmem
  | cons r rest ih =>
    simp only [printOidcProvidersResult]
    cases hc : checkOidcEntry expected r with
    | error e => exact ⟨e, rfl⟩
    | ok u =>
      rcases List.mem_cons.1 hmem with hhead | htail
      · subst hhead
        rw [hc] at hchk
        cases hchk
      · exact ih htail

/-! ## Helper lemmas about the validator-set comparison -/

theorem collectMismatches_isOk (p : GenesisInitParam)
    (vs : List ValidatorInfo) (i : Nat)
    (h1 : i + vs.length ≤ p.validatorAddresses.length)
    (h2 : i + vs.length ≤ p.aptosAddresses.length)
    (h3 : i + vs.length ≤ p.consensusPublicKeys.length)
    (h4 : i + vs.length ≤ p.votingPowers.length)
    (h5 : i + vs.length ≤ p.validatorNetworkAddresses.length)
    (h6 : i + vs.length ≤ p.fullnodeNetworkAddresses.length) :
    ∃ ms, collectMismatches p i vs = .ok ms := by
  induction vs generalizing i with
  | nil => exact ⟨[], rfl⟩
  | cons v rest ih =>
    simp only [List.length_cons] at h1 h2 h3 h4 h5 h6
    simp only [collectMismatches]
    rw [List.get?_eq_get (by omega : i < p.validatorAddresses.length),
      List.get?_eq_get (by omega : i < p.aptosAddresses.length),
      List.get?_eq_get (by omega : i < p.consensusPublicKeys.length),
      List.get?_eq_get (by omega : i < p.votingPowers.length),
      List.get?_eq_get (by omega : i < p.validatorNetworkAddresses.length),
      List.get?_eq_get (by omega : i < p.fullnodeNetworkAddresses.length)]
    obtain ⟨ms, hms⟩ := ih (i + 1) (by omega) (by omega) (by omega)
      (by omega) (by omega) (by omega)
    rw [hms]
    exact ⟨_, rfl⟩

/-! ## Derived builder views used by the ordering statements -/

/-- The JWK transactions contributed by the optional file: none when the
file is absent, exactly one when present and convertible. -/
def jwkTxsOfFile : Option JsonAllProvidersJWKs → Except String (List TxEnv)
  | none => .ok []
  | some doc =>
    match upsertObservedJwksTx doc with
    | .error e => .error e
    | .ok tx => .ok [tx]

/-- The OIDC transactions contributed by the optional file. -/
def oidcTxsOfFile : Option JsonOIDCProviders → List TxEnv
  | none => []
  | some doc => upsertOidcProviderTxs doc

theorem withJwksStep_eq (txs : List TxEnv) (j : Option JsonAllProvidersJWKs)
    (jtxs : List TxEnv) (h : jwkTxsOfFile j = .ok jtxs) :
    withJwksStep txs j = .ok (txs ++ jtxs) := by
  cases j with
  | none =>
    cases h
    simp [withJwksStep]
  | some doc =>
    simp only [jwkTxsOfFile] at h
    cases hu : upsertObservedJwksTx doc with
    | error e => rw [hu] at h; cases h
    | ok tx =>
      rw [hu] at h
      cases h
      simp [withJwksStep, hu]

theorem extractRuntimeBytecode_of_bad_hex (s : String) (h : hexDecode s = none) :
    extractRuntimeBytecode s = [] := by
  simp [extractRuntimeBytecode, h]

/-- Decidable equality on `Except`, used to evaluate the embedding on
concrete inputs. -/
instance exceptDecEq {ε α : Type} [DecidableEq ε] [DecidableEq α] :
    DecidableEq (Except ε α) := fun x y =>
  match x, y with
  | .ok a, .ok b =>
    if h : a = b then .isTrue (by rw [h])
    else .isFalse (by intro hc; cases hc; exact h rfl)
  | .error e, .error f =>
    if h : e = f then .isTrue (by rw [h])
    else .isFalse (by intro hc; cases hc; exact h rfl)
  | .ok _, .error _ => .isFalse (by intro hc; cases hc)
  | .error _, .ok _ => .isFalse (by intro hc; cases hc)

/-! ## Concrete fixtures used by the witnesses and counterexamples -/

/-- A bytecode directory where every blob is the single byte `0x00`. -/
def dirAllZero : String → Option String := fun _ => some ("00")

/-- A bytecode directory where every blob is the undecodable string `zz`. -/
def dirBadHex : String → Option String := fun _ => some ("zz")

/-- A bytecode directory missing the `System` blob. -/
def dirMissingSystem : String → Option String :=
  fun n => if n = "System" then none else some ("00")

/-- A one-validator configuration whose primary address matches the
address derived from its 32-byte identity value. -/
def goodConfig : GenesisConfig :=
  ⟨["0x0000000000000000000000000000000000000001"],
   ["k"],
   ["1"],
   [""],
   [""],
   ["0000000000000000000000000000000000000000000000000000000000000001"]⟩

/-- The same configuration with a primary address that does not match the
derived address. -/
def badConfig : GenesisConfig :=
  ⟨["0x0000000000000000000000000000000000000002"],
   ["k"],
   ["1"],
   [""],
   [""],
   ["0000000000000000000000000000000000000000000000000000000000000001"]⟩

/-- The parameters `goodConfig` parses to. -/
def goodParam : GenesisInitParam :=
  ⟨[1], [[107]], [1000000000000000000], [[]], [[]],
   [List.replicate 31 0 ++ [1]]⟩

/-! ## Claim theorems -/

/-- C1 (counterexample): the merge does *not* always retain the seeded
code.  At address 2 the seeder installed code `[171]`; the diff carries
an account-info payload without code; after the merge the account's code
is `none`, not the seeded `some [171]`, because `existing.info = info`
replaces the account-info wholesale. -/
theorem c1_seeded_code_not_retained :
    (alookup [(2, (⟨⟨0, 0, some [171]⟩, []⟩ : PlainAccount))] 2).map
        (fun a => a.info.code) = some (some [171]) ∧
    (alookup (mergeBundle [(2, (⟨some ⟨5, 1, none⟩, [(7, ⟨0, 9⟩)]⟩ : BundleAccount))]
        [(2, (⟨⟨0, 0, some [171]⟩, []⟩ : PlainAccount))]) 2).map
        (fun a => a.info.code) = some none ∧
    some (none : Option (List Nat)) ≠ some (some [171]) := by decide

/-- C1 (amended): for an address seeded and present in the diff with an
account-info payload, the merged account's account-info (code, balance
and nonce alike) is the diff's — the seeded code survives only when the
diff's account-info carries it — and its storage is the seeded storage
extended by the diff's present values, the diff winning on key
collisions; an address present only in the diff is inserted fresh
(`mergeOne` with no existing account). -/
theorem c1_merge_replaces_account_info :
    ∀ (bs : List (Nat × BundleAccount)) (gs : List (Nat × PlainAccount))
      (addr : Nat) (acct : BundleAccount) (info : AccountInfo),
      (bs.map Prod.fst).Nodup → (addr, acct) ∈ bs → acct.info = some info →
      alookup (mergeBundle bs gs) addr =
        some (mergeOne (alookup gs addr) info acct.storage) ∧
      (∀ (old new : List (Nat × Nat)) (k v : Nat),
        (new.map Prod.fst).Nodup → (k, v) ∈ new →
        alookup (extendStorage old new) k = some v) ∧
      (∀ (old new : List (Nat × Nat)) (k : Nat), k ∉ new.map Prod.fst →
        alookup (extendStorage old new) k = alookup old k) := by
  intro bs gs addr acct info hnd hmem hinfo
  exact ⟨mergeBundle_lookup_mem bs gs addr acct info hnd hmem hinfo,
    fun old new k v h1 h2 => extendStorage_lookup_mem old new k v h1 h2,
    fun old new k h => extendStorage_lookup_not_mem old new k h⟩

/-- C1 witness: the amended merge description evaluated at the
counterexample's input. -/
theorem c1_merge_replaces_account_info_witness :
    alookup (mergeBundle [(2, (⟨some ⟨5, 1, none⟩, [(7, ⟨0, 9⟩)]⟩ : BundleAccount))]
        [(2, (⟨⟨0, 0, some [171]⟩, []⟩ : PlainAccount))]) 2 =
      some (mergeOne (alookup [(2, (⟨⟨0, 0, some [171]⟩, []⟩ : PlainAccount))] 2)
        ⟨5, 1, none⟩ [(7, ⟨0, 9⟩)]) :=
  (c1_merge_replaces_account_info
    [(2, ⟨some ⟨5, 1, none⟩, [(7, ⟨0, 9⟩)]⟩)]
    [(2, ⟨⟨0, 0, some [171]⟩, []⟩)] 2 ⟨some ⟨5, 1, none⟩, [(7, ⟨0, 9⟩)]⟩
    ⟨5, 1, none⟩ (by decide) (by decide) rfl).1

/-- C2: the privileged caller `SYSTEM_CALLER` never appears as a key of
the final genesis account map: it is removed from the execution diff
before merging and the seeded contract map never contains it, so neither
the merged map nor any serialized account-map entry sequence mentions
it. -/
theorem c2_system_caller_never_in_snapshot :
    ∀ (dir : String → Option String) (config : GenesisConfig)
      (jf : Option JsonAllProvidersJWKs) (og : Option JsonOIDCProviders)
      (eo : Except String (List ExecResult × Bundle)) (out : GenesisRunOutput),
      genesisGenerate dir config jf og eo = .ok out →
      alookup out.genesisState SYSTEM_CALLER = none ∧
      (∀ (order : List Nat) (entry : Nat × PlainAccount),
        entry ∈ serializeAccounts order out.genesisState →
        entry.fst ≠ SYSTEM_CALLER) := by
  intro dir config jf og eo out h
  unfold genesisGenerate at h
  split at h
  · cases h
  · split at h
    · cases h
    · split at h
      · cases h
      · split at h
        · cases h
        · split at h
          · cases h
          · next genesisState0 heq =>
            cases h
            have hseed : alookup genesisState0 SYSTEM_CALLER = none := by
              unfold seedGenesisState at heq
              rw [seedFold_lookup_not_mem mkSeedPlain _ CONTRACTS [] genesisState0
                SYSTEM_CALLER heq (by decide)]
              rfl
            have hmain : ∀ bs : List (Nat × BundleAccount),
                alookup (mergeBundle (aremove bs SYSTEM_CALLER) genesisState0)
                  SYSTEM_CALLER = none := by
              intro bs
              rw [mergeBundle_lookup_not_mem _ _ _ (not_mem_fst_aremove _ _)]
              exact hseed
            refine ⟨hmain _, ?_⟩
            intro order entry hmem hfst
            obtain ⟨a, _ha, hsome⟩ := List.mem_filterMap.1 hmem
            obtain ⟨acct, hacct, hentry⟩ := Option.map_eq_some'.1 hsome
            rw [← hentry] at hfst
            simp only at hfst
            rw [hfst] at hacct
            rw [hmain _] at hacct
            cases hacct

/-- C2 witness: a full concrete run, with the privileged caller absent
from the merged snapshot. -/
theorem c2_system_caller_never_in_snapshot_witness :
    ∃ out, genesisGenerate dirAllZero goodConfig none none
        (.ok ([.success 21000 [] []], ⟨[]⟩)) = .ok out ∧
      alookup out.genesisState SYSTEM_CALLER = none := by
  cases hg : genesisGenerate dirAllZero goodConfig none none
      (.ok ([.success 21000 [] []], ⟨[]⟩)) with
  | error e =>
    have hok : (genesisGenerate dirAllZero goodConfig none none
        (.ok ([.success 21000 [] []], ⟨[]⟩))).isOk = true := by decide
    rw [hg] at hok
    simp [Except.isOk, Except.toBool] at hok
  | ok out =>
    exact ⟨out, rfl,
      (c2_system_caller_never_in_snapshot dirAllZero goodConfig none none _ out hg).1⟩

/-- C3: the claim is right and the code is wrong.  The balance allow-list
compares the contract name with the string `JwkManager`, but the static
table spells the JWK manager `JWKManager` (the comparison can never
match a table entry), so the JWK manager is seeded with balance 0 while
the validator-manager and genesis contracts do receive the pre-funded
1,000,000 * 10^18 wei. -/
theorem c3_jwk_manager_balance_zero :
    (deployBscStyle dirAllZero).map (fun db =>
      ((alookup db JWK_MANAGER_ADDR).map AccountInfo.balance,
       (alookup db VALIDATOR_MANAGER_ADDR).map AccountInfo.balance,
       (alookup db GENESIS_ADDR).map AccountInfo.balance)) =
      .ok (some 0, some (1000000 * 10 ^ 18), some (1000000 * 10 ^ 18)) ∧
    balanceForContract "JWKManager" = 0 ∧
    balanceForContract "JwkManager" = 1000000 * 10 ^ 18 ∧
    ("JWKManager", JWK_MANAGER_ADDR) ∈ CONTRACTS ∧
    (∀ p ∈ CONTRACTS, p.fst ≠ "JwkManager") := by decide

/-- C4: the cross-derivation identity check.  When some index of the
validator-address list differs from the address re-derived from the
32-byte identity value at that index, configuration parsing never
succeeds and no transaction list is ever built; when every index
matches (and the remaining fields decode), parsing succeeds and returns
exactly the decoded parameters. -/
theorem c4_address_rederivation_check :
    (∀ (c : GenesisConfig) (jf : Option JsonAllProvidersJWKs)
       (og : Option JsonOIDCProviders) (va : List Nat)
       (aps : List (List Nat)) (i a d : Nat),
       mapE parseAddressE c.validatorAddresses = .ok va →
       mapE parseAptosAddress c.aptosAddresses = .ok aps →
       va.get? i = some a → (aps.map addressFromWord).get? i = some d →
       a ≠ d →
       (∀ p, parseGenesisConfig c ≠ .ok p) ∧
       (∀ txs, buildGenesisTransactions c jf og ≠ .ok txs)) ∧
    (∀ (c : GenesisConfig) (va : List Nat) (pws : List Nat)
       (aps : List (List Nat)),
       mapE parseAddressE c.validatorAddresses = .ok va →
       mapE parsePowerE c.votingPowers = .ok pws →
       mapE parseAptosAddress c.aptosAddresses = .ok aps →
       va.length ≤ aps.length →
       (∀ i a d, va.get? i = some a →
         (aps.map addressFromWord).get? i = some d → a = d) →
       parseGenesisConfig c = .ok
         ⟨va, c.consensusPublicKeys.map utf8Bytes, pws,
          c.validatorNetworkAddresses.map networkAddrBytes,
          c.fullnodeNetworkAddresses.map networkAddrBytes, aps⟩) := by
  constructor
  · intro c jf og va aps i a d h1 h2 h3 h4 h5
    have hnp : ∀ p, parseGenesisConfig c ≠ .ok p := by
      intro p hp
      simp only [parseGenesisConfig, h1] at hp
      cases hpw : mapE parsePowerE c.votingPowers with
      | error e =>
        simp only [hpw] at hp
        cases hp
      | ok pws =>
        simp only [hpw, h2] at hp
        cases hchk : checkAddrs va (aps.map addressFromWord) with
        | error e =>
          simp only [hchk] at hp
          cases hp
        | ok u =>
          cases u
          exact h5 (checkAddrs_ok_get va (aps.map addressFromWord) i a d hchk h3 h4)
    refine ⟨hnp, ?_⟩
    intro txs htxs
    cases hpc : parseGenesisConfig c with
    | error e =>
      simp only [buildGenesisTransactions, callGenesisInitialize, hpc] at htxs
      cases htxs
    | ok p => exact hnp p hpc
  · intro c va pws aps h1 h2 h3 hlen hagree
    have hchk : checkAddrs va (aps.map addressFromWord) = .ok () :=
      checkAddrs_ok_of_agree va (aps.map addressFromWord)
        (by simpa using hlen) hagree
    simp only [parseGenesisConfig, h1, h2, h3, hchk]

/-- C4 witness: the check rejects a mismatching one-validator
configuration and accepts the matching one, returning its parameters. -/
theorem c4_address_rederivation_check_witness :
    ((∀ p, parseGenesisConfig badConfig ≠ .ok p) ∧
     (∀ txs, buildGenesisTransactions badConfig none none ≠ .ok txs)) ∧
    parseGenesisConfig goodConfig = .ok
      ⟨[1], goodConfig.consensusPublicKeys.map utf8Bytes, [1000000000000000000],
       goodConfig.validatorNetworkAddresses.map networkAddrBytes,
       goodConfig.fullnodeNetworkAddresses.map networkAddrBytes,
       [List.replicate 31 0 ++ [1]]⟩ :=
  ⟨c4_address_rederivation_check.1 badConfig none none [2]
    [List.replicate 31 0 ++ [1]] 0 2 1 (by decide) (by decide) (by decide)
    (by decide) (by decide),
   c4_address_rederivation_check.2 goodConfig [1] [1000000000000000000]
    [List.replicate 31 0 ++ [1]] (by decide) (by decide) (by decide)
    (by decide)
    (by
      intro i a d ha hd
      cases i with
      | zero =>
        cases ha
        cases hd
        decide
      | succ j => cases ha)⟩

/-- Unfolding of `with_oidc_providers` used by the ordering theorem. -/
theorem withOidcStep_eq (txs : List TxEnv) (og : Option JsonOIDCProviders) :
    withOidcStep txs og = txs ++ oidcTxsOfFile og := by
  cases og with
  | none => simp [withOidcStep, oidcTxsOfFile]
  | some doc => simp [withOidcStep, oidcTxsOfFile]

/-- C5: transaction ordering.  The built list is the initialize call at
position 0, then the JWK transactions of the optional JWK file (exactly
one if and only if the file is supplied), then one OIDC transaction per
provider entry of the optional provider file in file order; an absent
optional file contributes nothing and is not an error. -/
theorem c5_transaction_ordering :
    ∀ (c : GenesisConfig) (p : GenesisInitParam)
      (jf : Option JsonAllProvidersJWKs) (og : Option JsonOIDCProviders)
      (jtxs : List TxEnv),
      parseGenesisConfig c = .ok p →
      jwkTxsOfFile jf = .ok jtxs →
      buildGenesisTransactions c jf og =
        .ok (newSystemCallTxn GENESIS_ADDR (.genesisInitialize p) ::
          (jtxs ++ oidcTxsOfFile og)) ∧
      jtxs.length = (if jf.isSome then 1 else 0) ∧
      oidcTxsOfFile og = og.elim [] (fun doc => doc.providers.map (fun pr =>
        newSystemCallTxn JWK_MANAGER_ADDR
          (.upsertOIDCProvider pr.name pr.configUrl))) ∧
      jwkTxsOfFile none = .ok ([] : List TxEnv) ∧
      oidcTxsOfFile none = ([] : List TxEnv) := by
  intro c p jf og jtxs hp hj
  refine ⟨?_, ?_, ?_, rfl, rfl⟩
  · simp only [buildGenesisTransactions, callGenesisInitialize, hp,
      withJwksStep_eq [newSystemCallTxn GENESIS_ADDR (.genesisInitialize p)] jf jtxs hj,
      withOidcStep_eq]
    simp
  · cases jf with
    | none =>
      cases hj
      rfl
    | some doc =>
      simp only [jwkTxsOfFile] at hj
      cases hu : upsertObservedJwksTx doc with
      | error e => rw [hu] at hj; cases hj
      | ok tx =>
        rw [hu] at hj
        cases hj
        rfl
  · cases og with
    | none => rfl
    | some doc =>
      simp only [oidcTxsOfFile, upsertOidcProviderTxs, readOidcProvidersFromFile,
        Option.elim, List.map_map]
      rfl

/-- A concrete JWK document: one issuer, version 3, two entries. -/
def jwksDoc1 : JsonAllProvidersJWKs :=
  ⟨[⟨"https://issuer.example", 3, [⟨0, "00"⟩, ⟨1, "0a"⟩]⟩]⟩

/-- A concrete OIDC provider document with two providers. -/
def oidcDoc1 : JsonOIDCProviders :=
  ⟨[⟨"https://a.example", "https://a.example/conf", true⟩,
    ⟨"https://b.example", "https://b.example/conf", false⟩]⟩

/-- The single JWK transaction `jwksDoc1` converts to. -/
def jwkTxs1 : List TxEnv :=
  [newSystemCallTxn JWK_MANAGER_ADDR (.upsertObservedJWKs
    [⟨"https://issuer.example", 3, [⟨0, [0]⟩, ⟨1, [10]⟩]⟩] [])]

/-- C5 witness: the builder evaluated on a concrete configuration, JWK
file and OIDC provider file. -/
theorem c5_transaction_ordering_witness :
    buildGenesisTransactions goodConfig (some jwksDoc1) (some oidcDoc1) =
      .ok (newSystemCallTxn GENESIS_ADDR (.genesisInitialize goodParam) ::
        (jwkTxs1 ++ oidcTxsOfFile (some oidcDoc1))) ∧
    jwkTxs1.length = (if (some jwksDoc1).isSome then 1 else 0) :=
  ⟨(c5_transaction_ordering goodConfig goodParam (some jwksDoc1) (some oidcDoc1)
      jwkTxs1 (by decide) (by decide)).1,
   (c5_transaction_ordering goodConfig goodParam (some jwksDoc1) (some oidcDoc1)
      jwkTxs1 (by decide) (by decide)).2.1⟩

/-- C7 (counterexample): an undecodable bytecode blob is not fatal.
With every blob set to the undecodable string `zz`, seeding *succeeds*
and installs the empty byte string as the System contract's code,
because `extract_runtime_bytecode` hex-decodes with
`unwrap_or_default`. -/
theorem c7_bad_hex_not_fatal :
    hexDecode "zz" = none ∧
    (deployBscStyle dirBadHex).map (fun db =>
      (alookup db SYSTEM_CONTRACT_ADDRESS).map (fun a => a.code)) =
      .ok (some (some [])) := by decide

/-- C7 (amended): a missing bytecode file aborts seeding before any
execution (all-or-nothing), but undecodable hex content does not abort:
the blob decodes to the empty byte string and the contract is seeded
with empty code. -/
theorem c7_missing_blob_fatal_bad_hex_empty :
    (∀ dir : String → Option String,
      (∃ p, p ∈ CONTRACTS ∧ dir p.fst = none) →
      ∃ e, deployBscStyle dir = .error e) ∧
    (∀ (dir : String → Option String) (db : List (Nat × AccountInfo))
       (name : String) (addr : Nat) (s : String),
      (name, addr) ∈ CONTRACTS → dir name = some s → hexDecode s = none →
      deployBscStyle dir = .ok db →
      alookup db addr = some ⟨balanceForContract name, 0, some []⟩) := by
  constructor
  · intro dir hmiss
    obtain ⟨⟨n, a⟩, hmem, hnone⟩ := hmiss
    exact seedFold_error_of_missing mkDeployAccount dir CONTRACTS
      [(SYSTEM_CALLER, SYSTEM_ACCOUNT_INFO)] n a hmem hnone
  · intro dir db name addr s hmem hs hbad hok
    unfold deployBscStyle at hok
    obtain ⟨s2, hs2, hlook⟩ := seedFold_lookup_mem mkDeployAccount dir CONTRACTS
      [(SYSTEM_CALLER, SYSTEM_ACCOUNT_INFO)] db name addr hok (by decide) hmem
    rw [hs] at hs2
    cases hs2
    rw [hlook]
    unfold mkDeployAccount
    rw [extractRuntimeBytecode_of_bad_hex s hbad]

/-- C7 witness: the missing-file abort and the silent empty-code seeding
evaluated on concrete directories. -/
theorem c7_missing_blob_fatal_bad_hex_empty_witness :
    (∃ e, deployBscStyle dirMissingSystem = .error e) ∧
    (∃ db, deployBscStyle dirBadHex = .ok db ∧
      alookup db SYSTEM_CONTRACT_ADDRESS =
        some ⟨balanceForContract "System", 0, some []⟩) := by
  refine ⟨c7_missing_blob_fatal_bad_hex_empty.1 dirMissingSystem
    ⟨("System", SYSTEM_CONTRACT_ADDRESS), by decide, rfl⟩, ?_⟩
  cases hdb : deployBscStyle dirBadHex with
  | error e =>
    have hok : (deployBscStyle dirBadHex).isOk = true := by decide
    rw [hdb] at hok
    simp [Except.isOk, Except.toBool] at hok
  | ok db =>
    exact ⟨db, rfl, c7_missing_blob_fatal_bad_hex_empty.2 dirBadHex db "System"
      SYSTEM_CONTRACT_ADDRESS "zz" (by decide) rfl (by decide) hdb⟩

/-- C6 (counterexample): verification can abort.  A JWK query result
whose version differs from the source file's entry for the same issuer
makes `print_jwks_result` fail its `assert_eq!`, and an OIDC query
result whose config URL differs from the expected file's entry for the
same name makes `print_oidc_providers_result` fail its `assert_eq!` —
panics, not reported mismatches. -/
theorem c6_verification_assertions_abort :
    printJwksResult [⟨"https://issuer.example", 1, []⟩]
      [⟨"https://issuer.example", 2, []⟩] =
      .error ("assertion failed: version") ∧
    printOidcProvidersResult
      [⟨"https://a.example", "https://a.example/conf", true, 0⟩]
      [⟨"https://a.example", "https://changed.example/conf", true, 0⟩] =
      .error ("assertion failed: configUrl") := by decide

/-- C6 (amended): validator-set verification mismatches are non-fatal —
every field mismatch is collected with its expected and actual values
and aggregated into the pass/fail outcome, and the check always returns
normally for a parseable configuration with equally long field lists —
but a JWK (or OIDC) verification mismatch on an entry found in the
source file aborts through an assertion; the generation artifacts are
produced by `genesis_generate` before any verification runs, so the
verification outcome cannot affect them. -/
theorem c6_verification_mismatch_handling :
    (∀ (config : GenesisConfig) (validators : List ValidatorInfo)
       (p : GenesisInitParam),
      parseGenesisConfig config = .ok p →
      p.aptosAddresses.length = p.validatorAddresses.length →
      p.consensusPublicKeys.length = p.validatorAddresses.length →
      p.votingPowers.length = p.validatorAddresses.length →
      p.validatorNetworkAddresses.length = p.validatorAddresses.length →
      p.fullnodeNetworkAddresses.length = p.validatorAddresses.length →
      ∃ out, validateGenesisDataConsistency config validators = .ok out) ∧
    (∀ (fileEntries res : List ProviderJWKs) (pj rj : ProviderJWKs),
      rj ∈ res →
      fileEntries.find? (fun q => q.issuer == rj.issuer) = some pj →
      pj.version ≠ rj.version →
      ∃ e, printJwksResult fileEntries res = .error e) ∧
    (∀ (expected res : List OIDCProvider) (pe re : OIDCProvider),
      re ∈ res →
      expected.find? (fun q => q.name == re.name) = some pe →
      pe.configUrl ≠ re.configUrl →
      ∃ e, printOidcProvidersResult expected res = .error e) ∧
    (∀ (dir : String → Option String) (config : GenesisConfig)
       (jf : Option JsonAllProvidersJWKs) (og : Option JsonOIDCProviders)
       (eo : Except String (List ExecResult × Bundle))
       (validators : List ValidatorInfo) (out : GenesisRunOutput)
       (verdict : Except String ValidationOutcome),
      runMainLogic dir config jf og eo validators = .ok (out, verdict) →
      genesisGenerate dir config jf og eo = .ok out) := by
  refine ⟨?_, ?_, ?_, ?_⟩
  · intro config validators p hp h2 h3 h4 h5 h6
    unfold validateGenesisDataConsistency
    simp only [hp]
    by_cases hcnt : p.validatorAddresses.length ≠ validators.length
    · rw [if_pos hcnt]
      exact ⟨_, rfl⟩
    · rw [if_neg hcnt]
      push_neg at hcnt
      obtain ⟨ms, hms⟩ := collectMismatches_isOk p validators 0
        (by omega) (by omega) (by omega) (by omega) (by omega) (by omega)
      rw [hms]
      exact ⟨_, rfl⟩
  · intro fileEntries res pj rj hmem hfind hver
    have hchk : checkJwkEntry fileEntries rj = .error ("assertion failed: version") := by
      unfold checkJwkEntry
      simp only [hfind]
      rw [if_pos hver]
    exact printJwksResult_error_of_mem fileEntries res rj _ hmem hchk
  · intro expected res pe re hmem hfind hcfg
    have hname : pe.name = re.name := by
      have := List.find?_some hfind
      simpa [beq_iff_eq] using this
    have hchk : checkOidcEntry expected re =
        .error ("assertion failed: configUrl") := by
      unfold checkOidcEntry
      simp only [hfind]
      rw [if_neg (not_not_intro hname), if_pos hcfg]
    exact printOidcProvidersResult_error_of_mem expected res re _ hmem hchk
  · intro dir config jf og eo validators out verdict h
    unfold runMainLogic at h
    cases hg : genesisGenerate dir config jf og eo with
    | error e =>
      rw [hg] at h
      cases h
    | ok out2 =>
      rw [hg] at h
      cases h
      rfl

/-- C6 witness: the four amended behaviours evaluated on concrete
inputs. -/
theorem c6_verification_mismatch_handling_witness :
    (∃ out, validateGenesisDataConsistency goodConfig [] = .ok out) ∧
    (∃ e, printJwksResult [⟨"https://other.example", 4, []⟩,
        ⟨"https://issuer.example", 1, []⟩]
      [⟨"https://issuer.example", 2, []⟩] = .error e) ∧
    (∃ e, printOidcProvidersResult
      [⟨"https://b.example", "https://b.example/conf", false, 0⟩,
       ⟨"https://a.example", "https://a.example/conf", true, 0⟩]
      [⟨"https://a.example", "https://elsewhere.example/conf", true, 0⟩] =
      .error e) ∧
    (∃ out verdict,
      runMainLogic dirAllZero goodConfig none none
        (.ok ([.success 21000 [] []], ⟨[]⟩)) [] = .ok (out, verdict) ∧
      genesisGenerate dirAllZero goodConfig none none
        (.ok ([.success 21000 [] []], ⟨[]⟩)) = .ok out) := by
  refine ⟨c6_verification_mismatch_handling.1 goodConfig [] goodParam
      (by decide) (by decide) (by decide) (by decide) (by decide) (by decide),
    c6_verification_mismatch_handling.2.1
      [⟨"https://other.example", 4, []⟩, ⟨"https://issuer.example", 1, []⟩]
      [⟨"https://issuer.example", 2, []⟩]
      ⟨"https://issuer.example", 1, []⟩ ⟨"https://issuer.example", 2, []⟩
      (by decide) (by decide) (by decide),
    c6_verification_mismatch_handling.2.2.1
      [⟨"https://b.example", "https://b.example/conf", false, 0⟩,
       ⟨"https://a.example", "https://a.example/conf", true, 0⟩]
      [⟨"https://a.example", "https://elsewhere.example/conf", true, 0⟩]
      ⟨"https://a.example", "https://a.example/conf", true, 0⟩
      ⟨"https://a.example", "https://elsewhere.example/conf", true, 0⟩
      (by decide) (by decide) (by decide), ?_⟩
  cases hr : runMainLogic dirAllZero goodConfig none none
      (.ok ([.success 21000 [] []], ⟨[]⟩)) [] with
  | error e =>
    have hok : (runMainLogic dirAllZero goodConfig none none
        (.ok ([.success 21000 [] []], ⟨[]⟩)) []).isOk = true := by decide
    rw [hr] at hok
    simp [Except.isOk, Except.toBool] at hok
  | ok pr =>
    obtain ⟨out, verdict⟩ := pr
    exact ⟨out, verdict, rfl,
      c6_verification_mismatch_handling.2.2.2 dirAllZero goodConfig none none
        _ [] out verdict hr⟩

/-- C8: a non-success transaction outcome aborts the whole run with the
decoded diagnostics of the first failing transaction (its 4-byte revert
selector mapped through the hard-coded cause table, e.g. the
caller-not-authorized selector), and no output artifact is written. -/
theorem c8_failed_txn_aborts_without_artifacts :
    ∀ (dir : String → Option String) (config : GenesisConfig)
      (jf : Option JsonAllProvidersJWKs) (og : Option JsonOIDCProviders)
      (results : List ExecResult) (bundle : Bundle) (idx : Nat) (r : ExecResult),
      (deployBscStyle dir).isOk = true →
      (buildGenesisTransactions config jf og).isOk = true →
      results.get? idx = some r →
      r.isSuccess = false →
      (∀ k r2, k < idx → results.get? k = some r2 → r2.isSuccess = true) →
      genesisGenerate dir config jf og (.ok (results, bundle)) =
        .error ("Genesis transaction " ++ toString (idx + 1) ++ " failed: " ++
          analyzeTxnResult r, []) ∧
      selectorName [0x49, 0xfd, 0x36, 0xf2] = " (OnlySystemCaller)" := by
  intro dir config jf og results bundle idx r hdep hbld hget hfail hpre
  refine ⟨?_, by decide⟩
  have hchk := checkResults_error results 0 idx r hget hfail hpre
  have harith : 0 + idx + 1 = idx + 1 := by omega
  rw [harith] at hchk
  unfold genesisGenerate
  cases hd : deployBscStyle dir with
  | error e =>
    rw [hd] at hdep
    simp [Except.isOk, Except.toBool] at hdep
  | ok db =>
    cases hb : buildGenesisTransactions config jf og with
    | error e =>
      rw [hb] at hbld
      simp [Except.isOk, Except.toBool] at hbld
    | ok txs => simp only [hd, hb, hchk]

/-- C8 witness: a reverting first transaction with the recognized
caller-not-authorized selector aborts a concrete run with no artifact
written. -/
theorem c8_failed_txn_aborts_without_artifacts_witness :
    genesisGenerate dirAllZero goodConfig none none
      (.ok ([.revert 100 [0x49, 0xfd, 0x36, 0xf2]], ⟨[]⟩)) =
      .error ("Genesis transaction " ++ toString (0 + 1) ++ " failed: " ++
        analyzeTxnResult (.revert 100 [0x49, 0xfd, 0x36, 0xf2]), []) :=
  (c8_failed_txn_aborts_without_artifacts dirAllZero goodConfig none none
    [.revert 100 [0x49, 0xfd, 0x36, 0xf2]] ⟨[]⟩ 0
    (.revert 100 [0x49, 0xfd, 0x36, 0xf2]) (by decide) (by decide) rfl rfl
    (fun k r2 hk _ => absurd hk (Nat.not_lt_zero k))).1

/-- C9 (counterexample): the serialized account-map artifact is not a
function of the account map alone — two legitimate HashMap iteration
orders of the same two-entry map serialize to different entry
sequences, so two runs need not produce byte-identical artifacts. -/
theorem c9_serialization_order_dependent :
    [1, 2].Perm [2, 1] ∧
    serializeAccounts [1, 2]
        [(1, ⟨⟨0, 0, some [1]⟩, []⟩), (2, ⟨⟨0, 0, some [2]⟩, []⟩)] ≠
      serializeAccounts [2, 1]
        [(1, ⟨⟨0, 0, some [1]⟩, []⟩), (2, ⟨⟨0, 0, some [2]⟩, []⟩)] :=
  ⟨List.Perm.swap 2 1 [], by decide⟩

/-- C9 (amended): the merged account map underlying both artifacts is a
deterministic function of the inputs, so across two runs the serialized
account-map and contract-index artifacts hold the same entries — they
agree as key-value maps, i.e. up to the HashMap iteration order — but
their byte streams need not be identical. -/
theorem c9_artifacts_equal_up_to_order :
    ∀ (m : List (Nat × PlainAccount)) (o1 o2 : List Nat),
      o1.Perm o2 →
      (serializeAccounts o1 m).Perm (serializeAccounts o2 m) ∧
      (serializeContracts o1 m).Perm (serializeContracts o2 m) :=
  fun _m _o1 _o2 h => ⟨h.filterMap _, h.filterMap _⟩

/-- C9 witness: the permutation equivalence at the counterexample's
input. -/
theorem c9_artifacts_equal_up_to_order_witness :
    (serializeAccounts [1, 2]
        [(1, ⟨⟨0, 0, some [1]⟩, []⟩), (2, ⟨⟨0, 0, some [2]⟩, []⟩)]).Perm
      (serializeAccounts [2, 1]
        [(1, ⟨⟨0, 0, some [1]⟩, []⟩), (2, ⟨⟨0, 0, some [2]⟩, []⟩)]) :=
  (c9_artifacts_equal_up_to_order
    [(1, ⟨⟨0, 0, some [1]⟩, []⟩), (2, ⟨⟨0, 0, some [2]⟩, []⟩)]
    [1, 2] [2, 1] (List.Perm.swap 2 1 [])).1

/-- C10: JWK and OIDC verification compare only the entries the chain
query returned: an empty returned set verifies successfully with no
comparison, and an entry present only in the source file (its issuer or
name absent from the returned set) changes no verification outcome. -/
theorem c10_verification_only_returned_entries :
    (∀ fileEntries, printJwksResult fileEntries [] = .ok ()) ∧
    (∀ expected, printOidcProvidersResult expected [] = .ok ()) ∧
    (∀ (fileEntries : List ProviderJWKs) (extra : ProviderJWKs)
       (res : List ProviderJWKs),
      (∀ r ∈ res, r.issuer ≠ extra.issuer) →
      printJwksResult (fileEntries ++ [extra]) res =
        printJwksResult fileEntries res) ∧
    (∀ (expected : List OIDCProvider) (extra : OIDCProvider)
       (res : List OIDCProvider),
      (∀ r ∈ res, r.name ≠ extra.name) →
      printOidcProvidersResult (expected ++ [extra]) res =
        printOidcProvidersResult expected res) := by
  refine ⟨fun _ => rfl, fun _ => rfl, ?_, ?_⟩
  · intro fileEntries extra res h
    induction res with
    | nil => rfl
    | cons r rest ih =>
      simp only [printJwksResult]
      rw [checkJwkEntry_append_of_ne fileEntries extra r
        (h r (List.mem_cons_self r rest))]
      cases hc : checkJwkEntry fileEntries r with
      | error e => rfl
      | ok u => exact ih (fun r2 hr2 => h r2 (List.mem_cons_of_mem r hr2))
  · intro expected extra res h
    induction res with
    | nil => rfl
    | cons r rest ih =>
      simp only [printOidcProvidersResult]
      rw [checkOidcEntry_append_of_ne expected extra r
        (h r (List.mem_cons_self r rest))]
      cases hc : checkOidcEntry expected r with
      | error e => rfl
      | ok u => exact ih (fun r2 hr2 => h r2 (List.mem_cons_of_mem r hr2))

/-- C10 witness: empty returned sets verify successfully, and a
file-only issuer leaves the outcome unchanged. -/
theorem c10_verification_only_returned_entries_witness :
    printJwksResult [⟨"https://issuer.example", 3, []⟩] [] = .ok () ∧
    printOidcProvidersResult [] [] = .ok () ∧
    printJwksResult ([⟨"https://issuer.example", 3, []⟩] ++
        [⟨"https://file-only.example", 9, []⟩])
      [⟨"https://issuer.example", 3, []⟩] =
      printJwksResult [⟨"https://issuer.example", 3, []⟩]
        [⟨"https://issuer.example", 3, []⟩] :=
  ⟨c10_verification_only_returned_entries.1 [⟨"https://issuer.example", 3, []⟩],
   c10_verification_only_returned_entries.2.1 [],
   c10_verification_only_returned_entries.2.2.1
     [⟨"https://issuer.example", 3, []⟩] ⟨"https://file-only.example", 9, []⟩
     [⟨"https://issuer.example", 3, []⟩] (by decide)⟩
